import Mathlib

/-!
Verification of the habit-reminder service: the habit validators
(`Habit.clean` in `habits/models.py`, `HabitSerializer.validate` in
`habits/serializers.py`), the field validators declared on the `Habit`
model, and the celery tasks (`send_reminder_notifications`,
`send_telegram_message`, `send_weekly_report` in `habits/tasks.py`),
shallowly embedded as executable Lean functions.
-/

namespace Habits

/-- Python truthiness of an optional string: `None` and `""` are falsy. -/
def truthy : Option String → Bool
  | none => false
  | some s => !(s == "")

/-- `UserProfile` (models.py): one-to-one extension of a user with the
Telegram address fields; both optional and possibly blank. -/
structure UserProfile where
  telegram_id : Option String
  telegram_username : Option String
  deriving Repr, DecidableEq

/-- A Django auth user as seen by the tasks: an id, a username, the
`is_active` flag, and the optional reverse one-to-one `profile`. -/
structure UserRec where
  id : Nat
  username : String
  is_active : Bool
  profile : Option UserProfile
  deriving Repr, DecidableEq

/-- A time-of-day value (`models.TimeField` stores hour, minute, second;
no date component). -/
structure TimeOfDay where
  hour : Nat
  minute : Nat
  second : Nat
  deriving Repr, DecidableEq

/-- `timezone.now()`: a date part plus a time-of-day part. The tick only
ever reads `.time`. -/
structure DateTimeRec where
  dayIndex : Int
  time : TimeOfDay
  deriving Repr, DecidableEq

/-- The `Habit` model row (models.py). `related_habit` is a nullable
self-reference; the validators only read the referenced habit's
`is_pleasant` flag, so the reference is embedded as that flag.
`created_at` is a day index used by the weekly-report window. -/
structure Habit where
  user : UserRec
  place : Option String
  time : TimeOfDay
  action : String
  is_pleasant : Bool
  related_habit : Option Bool
  frequency : Int
  reward : Option String
  duration : Int
  is_public : Bool
  created_at : Int
  deriving Repr, DecidableEq

/-- The validation errors raised by `Habit.clean` / `HabitSerializer.validate`,
named as in the spec's error taxonomy. -/
inductive VErr where
  | pleasantHasReward
  | pleasantHasRelated
  | rewardAndRelatedBothSet
  | relatedNotPleasant
  deriving Repr, DecidableEq

/-- `Habit.clean` (models.py lines 51-69), on the full model instance:
pleasant habits may carry neither a reward nor a related habit; a
non-pleasant habit may not carry both; a related habit must be pleasant.
Checks run in source order and the first failure is raised. -/
def clean (h : Habit) : Except VErr Unit :=
  if h.is_pleasant && truthy h.reward then
    .error .pleasantHasReward
  else if h.is_pleasant && h.related_habit.isSome then
    .error .pleasantHasRelated
  else if !h.is_pleasant && (truthy h.reward && h.related_habit.isSome) then
    .error .rewardAndRelatedBothSet
  else
    match h.related_habit with
    | some refPleasant => if refPleasant then .ok () else .error .relatedNotPleasant
    | none => .ok ()

/-- The validated-data dictionary seen by `HabitSerializer.validate`:
`data.get("is_pleasant", False)` means the flag may be absent (partial
update) and then defaults to false; `data.get("reward")` and
`data.get("related_habit")` yield `None` when the key is absent. -/
structure SerData where
  is_pleasant : Option Bool
  reward : Option String
  related_habit : Option Bool
  deriving Repr, DecidableEq

/-- `HabitSerializer.validate` (serializers.py lines 15-40), over the
submitted fields only. Same rule structure as `clean`, but the pleasant
flag defaults to false when not submitted. -/
def serValidate (d : SerData) : Except VErr SerData :=
  let p := d.is_pleasant.getD false
  if p && truthy d.reward then
    .error .pleasantHasReward
  else if p && d.related_habit.isSome then
    .error .pleasantHasRelated
  else if !p && (truthy d.reward && d.related_habit.isSome) then
    .error .rewardAndRelatedBothSet
  else
    match d.related_habit with
    | some refPleasant =>
        if refPleasant then .ok d else .error .relatedNotPleasant
    | none => .ok d

/-- The full-payload data for a habit: every field the serializer's
`validate` reads is present (a create, or a full update). -/
def fullDataOf (h : Habit) : SerData :=
  { is_pleasant := some h.is_pleasant
    reward := h.reward
    related_habit := h.related_habit }

/-- A PATCH body: each validated field is either absent (outer `none`,
the stored value is kept) or submitted (possibly as an explicit null). -/
structure Patch where
  is_pleasant : Option Bool
  reward : Option (Option String)
  related_habit : Option (Option Bool)
  deriving Repr, DecidableEq

/-- The dictionary `HabitSerializer.validate` receives on a partial
update: only the submitted keys; `data.get` collapses "absent" and
"submitted as null" to `None`. -/
def patchData (p : Patch) : SerData :=
  { is_pleasant := p.is_pleasant
    reward := p.reward.join
    related_habit := p.related_habit.join }

/-- The model instance after applying a PATCH: submitted fields replace
the stored ones, absent fields keep the stored value. -/
def applyPatch (h : Habit) (p : Patch) : Habit :=
  { h with
    is_pleasant := p.is_pleasant.getD h.is_pleasant
    reward := p.reward.getD h.reward
    related_habit := p.related_habit.getD h.related_habit }

/-- The API create path (`HabitViewSet` / `perform_create`): the
serializer validates, and only on success is the row appended to the
store. -/
def apiCreate (store : List Habit) (h : Habit) : Except VErr (List Habit) :=
  match serValidate (fullDataOf h) with
  | .error e => .error e
  | .ok _ => .ok (store ++ [h])

/-- The field validators declared on the `Habit` model (models.py lines
33-42): `frequency` is a `PositiveIntegerField` (value ≥ 0) with
`MinValueValidator(1)` and `MaxValueValidator(7)`; `duration` is a
`PositiveIntegerField` (value ≥ 0) with `MaxValueValidator(2)`. -/
def fieldValid (h : Habit) : Bool :=
  (0 ≤ h.frequency && 1 ≤ h.frequency && h.frequency ≤ 7) &&
  (0 ≤ h.duration && h.duration ≤ 2)

/-- The due-set query of a reminder tick (tasks.py lines 25-29):
`Habit.objects.filter(time__hour=.., time__minute=.., user__is_active=True)`.
Exact (hour, minute) equality; seconds and the date are never read. -/
def findDue (store : List Habit) (now : DateTimeRec) : List Habit :=
  store.filter fun h =>
    h.time.hour == now.time.hour &&
    h.time.minute == now.time.minute &&
    h.user.is_active

/-- Recipient resolution inside the tick loop (tasks.py lines 36-44):
`telegram_id` stays `None` unless the user has a profile whose
`telegram_id` is truthy. -/
def resolveTelegram (u : UserRec) : Option String :=
  match u.profile with
  | none => none
  | some p => if truthy p.telegram_id then p.telegram_id else none

/-- Left-pad to two digits, as `strftime("%H:%M")` does per component. -/
def pad2 (n : Nat) : String :=
  if n < 10 then "0" ++ toString n else toString n

/-- `value or default` for an optional string, as Python evaluates it. -/
def orDefault (s : Option String) (deflt : String) : String :=
  match s with
  | some v => if v == "" then deflt else v
  | none => deflt

/-- The reminder message built in tasks.py lines 46-53. -/
def formatReminder (h : Habit) : String :=
  "🔔 <b>Напоминание о привычке!</b>\n\n" ++
  "⏰ <b>Время:</b> " ++ pad2 h.time.hour ++ ":" ++ pad2 h.time.minute ++ "\n" ++
  "📍 <b>Место:</b> " ++ orDefault h.place "Не указано" ++ "\n" ++
  "✅ <b>Действие:</b> " ++ h.action ++ "\n" ++
  "⏱ <b>Время на выполнение:</b> " ++ toString h.duration ++ " мин.\n" ++
  "🎁 <b>Вознаграждение:</b> " ++ orDefault h.reward "Нет"

/-- What the external transport does with one HTTP request: a response
with a status and body, a timeout, a requests-level error, or any other
exception. -/
inductive TransportOutcome where
  | response (status : Nat) (body : String)
  | timeout
  | requestError (msg : String)
  | otherError (msg : String)
  deriving Repr, DecidableEq

/-- The network's behaviour, as a function of the request payload. -/
def Oracle := String → String → TransportOutcome

/-- One HTTP POST to the Telegram API as issued by
`send_telegram_message`: the payload plus the hard-coded `timeout=10`. -/
structure HttpReq where
  chat_id : String
  text : String
  timeoutSec : Nat
  deriving Repr, DecidableEq

/-- `send_telegram_message` (tasks.py lines 72-115), returning its
boolean result together with the HTTP requests it issued. With a falsy
bot token it returns `False` without any request; otherwise it issues
exactly one request with `timeout=10` and returns `True` exactly on a
200 response — every other outcome (non-200 status, timeout, request
exception, unexpected exception) yields `False`. -/
def sendTelegramCall (token : Option String) (oracle : Oracle)
    (chat_id text : String) : Bool × List HttpReq :=
  if !truthy token then
    (false, [])
  else
    let result :=
      match oracle chat_id text with
      | .response status _ => status == 200
      | .timeout => false
      | .requestError _ => false
      | .otherError _ => false
    (result, [⟨chat_id, text, 10⟩])

/-- The boolean result of `send_telegram_message` alone. -/
def sendTelegramMessage (token : Option String) (oracle : Oracle)
    (chat_id text : String) : Bool :=
  (sendTelegramCall token oracle chat_id text).1

/-- Mutable state of the tick loop: the two counters plus the calls made
to `send_telegram_message` (chat id and message text). -/
structure TickState where
  sent : Nat
  skipped : Nat
  sendCalls : List (String × String)
  deriving Repr, DecidableEq

/-- One iteration of the tick loop (tasks.py lines 34-65) for one due
habit: resolve the recipient; with no address, count the habit as
skipped without touching the transport; otherwise format the reminder
and dispatch it, counting `sent` on success and `skipped` on failure. -/
def stepHabit (token : Option String) (oracle : Oracle)
    (st : TickState) (h : Habit) : TickState :=
  match resolveTelegram h.user with
  | none => { st with skipped := st.skipped + 1 }
  | some tid =>
      let msg := formatReminder h
      if sendTelegramMessage token oracle tid msg then
        { st with sent := st.sent + 1, sendCalls := st.sendCalls ++ [(tid, msg)] }
      else
        { st with skipped := st.skipped + 1, sendCalls := st.sendCalls ++ [(tid, msg)] }

/-- The per-tick summary record `{checked, sent, skipped}`. -/
structure TickSummary where
  checked : Nat
  sent : Nat
  skipped : Nat
  deriving Repr, DecidableEq

/-- `send_reminder_notifications` (tasks.py lines 14-69): compute the
due-set for `now`, loop over it, and return the summary plus the
transport calls made. `checked` is `habits.count()` on the same
(unchanged) store. -/
def sendReminderNotifications (store : List Habit) (now : DateTimeRec)
    (token : Option String) (oracle : Oracle) : TickSummary × List (String × String) :=
  let due := findDue store now
  let st := due.foldl (stepHabit token oracle) ⟨0, 0, []⟩
  (⟨due.length, st.sent, st.skipped⟩, st.sendCalls)

/-- The weekly message built in tasks.py lines 142-148. -/
def formatWeekly (username : String) (habitCount : Nat) : String :=
  "📊 <b>Недельный отчёт</b>\n\n" ++
  "👤 Пользователь: " ++ username ++ "\n" ++
  "📅 Период: последние 7 дней\n" ++
  "✅ Создано привычек: " ++ toString habitCount ++ "\n\n" ++
  "Продолжай в том же духе! 💪"

/-- The body of one weekly-report iteration (the `try` block, tasks.py
lines 132-152): an arbitrary runtime failure for this user (modelled by
the `raises` oracle) surfaces as an exception; otherwise resolve the
recipient, and when one exists count the user's habits created in the
trailing window and send the report, returning the transport call
made (if any). -/
def weeklyUserBody (raises : UserRec → Bool) (store : List Habit)
    (weekAgo : Int) (token : Option String) (oracle : Oracle)
    (u : UserRec) : Except String (List (String × String)) :=
  if raises u then
    .error "exception"
  else
    match resolveTelegram u with
    | none => .ok []
    | some tid =>
        let cnt := (store.filter fun h => h.user.id == u.id && weekAgo ≤ h.created_at).length
        let msg := formatWeekly u.username cnt
        let _ := sendTelegramMessage token oracle tid msg
        .ok [(tid, msg)]

/-- The weekly-report loop (tasks.py lines 131-156): each user's body
runs inside `try/except`, so a failure is logged and the loop moves to
the next user. Returns the ids of the users whose iteration ran and the
transport calls made. -/
def weeklyLoop (raises : UserRec → Bool) (store : List Habit)
    (weekAgo : Int) (token : Option String) (oracle : Oracle) :
    List UserRec → List Nat × List (String × String)
  | [] => ([], [])
  | u :: rest =>
      let tail := weeklyLoop raises store weekAgo token oracle rest
      match weeklyUserBody raises store weekAgo token oracle u with
      | .error _ => (u.id :: tail.1, tail.2)
      | .ok calls => (u.id :: tail.1, calls ++ tail.2)

/-- `send_weekly_report` (tasks.py lines 118-158): iterate over all
active users and return the fixed completion string, the processed user
ids, and the transport calls. -/
def sendWeeklyReport (users : List UserRec) (raises : UserRec → Bool)
    (store : List Habit) (weekAgo : Int) (token : Option String)
    (oracle : Oracle) : String × List Nat × List (String × String) :=
  let active := users.filter (·.is_active)
  let r := weeklyLoop raises store weekAgo token oracle active
  ("Недельные отчёты отправлены", r.1, r.2)

/-- The error carried by a validator result, if any. -/
def errOf {α : Type} : Except VErr α → Option VErr
  | .error e => some e
  | .ok _ => none

/-- Whether a validator result is one of the three reward/related
exclusivity rejections (as opposed to success or the
related-not-pleasant rejection). -/
def exclusivityErr {α : Type} : Except VErr α → Bool
  | .error .pleasantHasReward => true
  | .error .pleasantHasRelated => true
  | .error .rewardAndRelatedBothSet => true
  | _ => false

/-- One loop iteration moves exactly one of the two counters up by one. -/
theorem stepHabit_counts (token : Option String) (oracle : Oracle)
    (st : TickState) (h : Habit) :
    (stepHabit token oracle st h).sent + (stepHabit token oracle st h).skipped
      = st.sent + st.skipped + 1 := by
  unfold stepHabit
  cases resolveTelegram h.user with
  | none => simp; omega
  | some tid =>
      simp only []
      split <;> simp <;> omega

/-- Folding the loop over a list of due habits adds the list's length to
the counters' sum. -/
theorem foldl_stepHabit_counts (token : Option String) (oracle : Oracle)
    (l : List Habit) (st : TickState) :
    (l.foldl (stepHabit token oracle) st).sent
        + (l.foldl (stepHabit token oracle) st).skipped
      = st.sent + st.skipped + l.length := by
  induction l generalizing st with
  | nil => simp
  | cons h t ih =>
      simp only [List.foldl_cons, List.length_cons]
      rw [ih, stepHabit_counts]
      omega

end Habits

namespace Habits

/-- C1: membership in the due-set of a tick is characterised exactly by
the habit's stored (hour, minute) matching the current time's (hour,
minute) and the owner being active; the seconds and date of `now` are
discarded, and no other habit field — in particular `frequency` —
affects membership. -/
theorem due_set_characterization (store : List Habit) (now : DateTimeRec)
    (h : Habit) :
    (h ∈ findDue store now ↔
      h ∈ store ∧ h.time.hour = now.time.hour ∧ h.time.minute = now.time.minute ∧
        h.user.is_active = true) ∧
    (∀ f : Int,
      findDue (store.map fun hb => { hb with frequency := f }) now
        = (findDue store now).map fun hb => { hb with frequency := f }) ∧
    (∀ (d : Int) (s : Nat),
      findDue store ⟨d, ⟨now.time.hour, now.time.minute, s⟩⟩ = findDue store now) := by
  refine ⟨?_, ?_, ?_⟩
  · simp [findDue, List.mem_filter, and_assoc]
  · intro f
    simp only [findDue, List.filter_map]
    rfl
  · intro d s
    rfl

/-- C2: the tick summary has `checked` equal to the size of the due-set
computed at that tick, and `sent + skipped = checked`, each due habit
moving exactly one of the two counters. -/
theorem tick_summary_accounting (store : List Habit) (now : DateTimeRec)
    (token : Option String) (oracle : Oracle) :
    (sendReminderNotifications store now token oracle).1.checked
        = (findDue store now).length ∧
    (sendReminderNotifications store now token oracle).1.sent
        + (sendReminderNotifications store now token oracle).1.skipped
      = (sendReminderNotifications store now token oracle).1.checked := by
  refine ⟨rfl, ?_⟩
  show ((findDue store now).foldl (stepHabit token oracle) ⟨0, 0, []⟩).sent
      + ((findDue store now).foldl (stepHabit token oracle) ⟨0, 0, []⟩).skipped
    = (findDue store now).length
  rw [foldl_stepHabit_counts]
  simp

/-- C3: at both layers, a rejection by the reward/related exclusivity
checks happens exactly when the pleasant flag is set and a reward or a
related habit is present, or the flag is unset and both are present;
otherwise these checks pass. -/
theorem exclusivity_checks (h : Habit) (d : SerData) :
    exclusivityErr (clean h)
      = (h.is_pleasant && (truthy h.reward || h.related_habit.isSome)
          || !h.is_pleasant && (truthy h.reward && h.related_habit.isSome)) ∧
    exclusivityErr (serValidate d)
      = (d.is_pleasant.getD false && (truthy d.reward || d.related_habit.isSome)
          || !(d.is_pleasant.getD false) && (truthy d.reward && d.related_habit.isSome)) := by
  constructor
  · cases hp : h.is_pleasant <;> cases hw : truthy h.reward <;>
      cases hr : h.related_habit <;>
      simp [clean, exclusivityErr, hp, hw, hr]
    all_goals (rename_i b; cases b <;> simp [exclusivityErr])
  · cases hp : d.is_pleasant.getD false <;> cases hw : truthy d.reward <;>
      cases hr : d.related_habit <;>
      simp [serValidate, exclusivityErr, hp, hw, hr]
    all_goals (rename_i b; cases b <;> simp [exclusivityErr])

/-- A pleasant habit whose related habit is itself not pleasant: the
validator rejects it, but with the pleasant-habit-has-related error, not
the related-not-pleasant one — the pleasant checks run first. -/
def pleasantWithBadRelated : Habit :=
  { user := ⟨1, "u", true, none⟩
    place := none
    time := ⟨8, 0, 0⟩
    action := "act"
    is_pleasant := true
    related_habit := some false
    frequency := 1
    reward := none
    duration := 1
    is_public := false
    created_at := 0 }

/-- C4 counterexample: a habit with `related_habit` present whose
referenced habit is not pleasant, yet validation does not reject it with
`RelatedHabitNotPleasant` (the earlier pleasant-has-related check fires
instead), refuting the claimed equivalence at this input. -/
theorem related_check_claim_fails :
    ¬((clean pleasantWithBadRelated = .error .relatedNotPleasant)
        ↔ pleasantWithBadRelated.related_habit = some false) := by
  simp [pleasantWithBadRelated, clean, truthy]

/-- C4 amended: for a habit with `related_habit` present that passes the
exclusivity checks (pleasant flag unset and reward absent), both layers
reject with `RelatedHabitNotPleasant` exactly when the referenced
habit's pleasant flag is false. -/
theorem related_check_iff (h : Habit) (d : SerData) (b c : Bool)
    (hp : h.is_pleasant = false) (hw : truthy h.reward = false)
    (hr : h.related_habit = some b)
    (dp : d.is_pleasant.getD false = false) (dw : truthy d.reward = false)
    (dr : d.related_habit = some c) :
    (clean h = .error .relatedNotPleasant ↔ b = false) ∧
    (serValidate d = .error .relatedNotPleasant ↔ c = false) := by
  constructor
  · simp [clean, hp, hw, hr]
  · simp [serValidate, dp, dw, dr]

/-- A useful (non-pleasant, rewardless) habit pointing at a non-pleasant
related habit. -/
def usefulWithBadRelated : Habit :=
  { pleasantWithBadRelated with is_pleasant := false }

/-- C4 amended witness: at a concrete non-pleasant rewardless habit
whose related habit is not pleasant, both layers reject with
`RelatedHabitNotPleasant`. -/
theorem related_check_iff_witness :
    clean usefulWithBadRelated = .error .relatedNotPleasant ∧
    serValidate (fullDataOf usefulWithBadRelated) = .error .relatedNotPleasant := by
  have hmain := related_check_iff usefulWithBadRelated
    (fullDataOf usefulWithBadRelated) false false rfl rfl rfl rfl rfl rfl
  exact ⟨hmain.1.mpr rfl, hmain.2.mpr rfl⟩

/-- A stored pleasant habit that is valid on its own. -/
def storedPleasant : Habit :=
  { pleasantWithBadRelated with related_habit := none }

/-- A PATCH that submits only a reward. -/
def rewardOnlyPatch : Patch :=
  { is_pleasant := none, reward := some (some "кофе"), related_habit := none }

/-- C5 counterexample: on a partial update of a stored pleasant habit
that submits only a reward, the serializer validator (whose pleasant
flag defaults to false when not submitted) accepts, while the
storage-layer `clean` of the patched instance rejects — the two layers
do not reject the same inputs. -/
theorem validators_disagree_on_patch :
    (serValidate (patchData rewardOnlyPatch)).toBool = true ∧
    clean (applyPatch storedPleasant rewardOnlyPatch) = .error .pleasantHasReward := by
  constructor <;> rfl

/-- C5 amended: on a full payload (create, or an update submitting every
field) the serializer validator and the storage-layer `clean` reject
exactly the same inputs with the same error, and the API create path
commits the row only when the serializer validator accepts. -/
theorem validators_agree_on_full_payload (h : Habit) (store : List Habit) :
    errOf (serValidate (fullDataOf h)) = errOf (clean h) ∧
    (∀ e, serValidate (fullDataOf h) = .error e → apiCreate store h = .error e) ∧
    (serValidate (fullDataOf h) = .ok (fullDataOf h) →
      apiCreate store h = .ok (store ++ [h])) := by
  refine ⟨?_, ?_, ?_⟩
  · cases hp : h.is_pleasant <;> cases hr : h.related_habit <;>
      simp [clean, serValidate, fullDataOf, errOf, hp, hr]
    all_goals (cases hw : truthy h.reward <;> simp [hw, errOf])
    all_goals (rename_i b; cases b <;> simp [errOf])
  · intro e he
    simp [apiCreate, he]
  · intro hok
    simp [apiCreate, hok]

/-- C5 amended witness: at a concrete well-formed habit, the serializer
and the model validator agree, and the create path appends the row. -/
theorem validators_agree_on_full_payload_witness :
    errOf (serValidate (fullDataOf storedPleasant)) = errOf (clean storedPleasant) ∧
    apiCreate [] storedPleasant = .ok [storedPleasant] := by
  have hmain := validators_agree_on_full_payload storedPleasant []
  refine ⟨hmain.1, ?_⟩
  have := hmain.2.2 rfl
  simpa using this

/-- C6: recipient resolution yields no address both for an owner without
a profile and for an owner whose profile has a falsy (absent or empty)
address, and for any due habit whose owner resolves to no address the
tick increments `skipped` by one and leaves `sent` and the transport
calls untouched — the same total, error-free outcome in both cases. -/
theorem no_address_skips (u1 u2 : UserRec) (p : UserProfile)
    (token : Option String) (oracle : Oracle) (st : TickState) (h : Habit)
    (h1 : u1.profile = none)
    (h2 : u2.profile = some p) (hp : truthy p.telegram_id = false)
    (hres : resolveTelegram h.user = none) :
    resolveTelegram u1 = none ∧ resolveTelegram u2 = none ∧
    stepHabit token oracle st h
      = { sent := st.sent, skipped := st.skipped + 1, sendCalls := st.sendCalls } := by
  refine ⟨?_, ?_, ?_⟩
  · simp [resolveTelegram, h1]
  · simp [resolveTelegram, h2, hp]
  · simp [stepHabit, hres]

/-- An owner with no profile record. -/
def ownerNoProfile : UserRec := ⟨2, "noprof", true, none⟩

/-- An owner whose profile exists but has an empty address. -/
def ownerEmptyAddress : UserRec := ⟨3, "emptyaddr", true, some ⟨some "", none⟩⟩

/-- A due habit owned by the profile-less user. -/
def habitNoProfile : Habit :=
  { pleasantWithBadRelated with
    user := ownerNoProfile, is_pleasant := false, related_habit := none }

/-- C6 witness: at the two concrete owners and a concrete due habit, the
resolver yields no address and the tick counts one skip with no
transport call. -/
theorem no_address_skips_witness :
    resolveTelegram ownerNoProfile = none ∧
    resolveTelegram ownerEmptyAddress = none ∧
    stepHabit (some "token") (fun _ _ => .response 200 "ok") ⟨0, 0, []⟩ habitNoProfile
      = { sent := 0, skipped := 1, sendCalls := [] } := by
  exact no_address_skips ownerNoProfile ownerEmptyAddress ⟨some "", none⟩
    (some "token") (fun _ _ => .response 200 "ok") ⟨0, 0, []⟩ habitNoProfile
    rfl rfl rfl rfl

/-- C7: `send_telegram_message` succeeds exactly when the token is set
and the request comes back with status 200; with a falsy token it fails
without issuing any request; it issues at most one request per call (no
retry), always with timeout 10; and a failed dispatch of a due habit —
whatever the failure kind — is tallied by the scheduler as exactly one
skip. -/
theorem transport_send_contract (token : Option String) (oracle : Oracle)
    (cid txt : String) (st : TickState) (h : Habit) (tid : String) :
    (sendTelegramMessage token oracle cid txt = true ↔
      truthy token = true ∧ ∃ b, oracle cid txt = .response 200 b) ∧
    (truthy token = false → sendTelegramCall token oracle cid txt = (false, [])) ∧
    (sendTelegramCall token oracle cid txt).2.length ≤ 1 ∧
    (∀ r ∈ (sendTelegramCall token oracle cid txt).2, r.timeoutSec = 10) ∧
    (resolveTelegram h.user = some tid →
      sendTelegramMessage token oracle tid (formatReminder h) = false →
      stepHabit token oracle st h
        = { sent := st.sent, skipped := st.skipped + 1,
            sendCalls := st.sendCalls ++ [(tid, formatReminder h)] }) := by
  refine ⟨?_, ?_, ?_, ?_, ?_⟩
  · cases ht : truthy token with
    | false => simp [sendTelegramMessage, sendTelegramCall, ht]
    | true =>
        simp only [sendTelegramMessage, sendTelegramCall, ht, Bool.not_true,
          Bool.false_eq_true, if_false, ht, true_and]
        cases ho : oracle cid txt <;> simp [ho]
  · intro ht
    simp [sendTelegramCall, ht]
  · cases ht : truthy token <;> simp [sendTelegramCall, ht]
  · intro r hr
    cases ht : truthy token <;> simp [sendTelegramCall, ht] at hr
    · rw [hr]
  · intro hres hfail
    simp [stepHabit, hres, hfail]

/-- A due habit whose owner has a usable Telegram address. -/
def habitWithAddress : Habit :=
  { habitNoProfile with user := ⟨4, "hasaddr", true, some ⟨some "42", none⟩⟩ }

/-- C7 witness: with a configured token and a timing-out transport, the
send returns false and the due habit is tallied as one skip with the one
call recorded; with no token, no request is issued. -/
theorem transport_send_contract_witness :
    sendTelegramCall none (fun _ _ => .timeout) "42" "hello" = (false, []) ∧
    stepHabit (some "token") (fun _ _ => .timeout) ⟨0, 0, []⟩ habitWithAddress
      = { sent := 0, skipped := 1,
          sendCalls := [("42", formatReminder habitWithAddress)] } := by
  refine ⟨(transport_send_contract none (fun _ _ => .timeout) "42" "hello"
      ⟨0, 0, []⟩ habitWithAddress "42").2.1 rfl, ?_⟩
  exact (transport_send_contract (some "token") (fun _ _ => .timeout) "42" "hello"
      ⟨0, 0, []⟩ habitWithAddress "42").2.2.2.2 rfl rfl

/-- The weekly loop visits every user of its input list, in order,
whatever the per-user failure oracle does. -/
theorem weeklyLoop_visits_all (raises : UserRec → Bool) (store : List Habit)
    (weekAgo : Int) (token : Option String) (oracle : Oracle)
    (users : List UserRec) :
    (weeklyLoop raises store weekAgo token oracle users).1 = users.map (·.id) := by
  induction users with
  | nil => rfl
  | cons u rest ih =>
      simp only [weeklyLoop]
      cases weeklyUserBody raises store weekAgo token oracle u <;>
        simp [ih]

/-- C8: whatever per-user failures occur, the weekly report job
processes every active user (each failure is caught inside that user's
iteration) and finishes, returning its fixed completion string. -/
theorem weekly_report_isolation (users : List UserRec)
    (raises : UserRec → Bool) (store : List Habit) (weekAgo : Int)
    (token : Option String) (oracle : Oracle) :
    (sendWeeklyReport users raises store weekAgo token oracle).2.1
      = (users.filter (·.is_active)).map (·.id) ∧
    (sendWeeklyReport users raises store weekAgo token oracle).1
      = "Недельные отчёты отправлены" := by
  exact ⟨weeklyLoop_visits_all raises store weekAgo token oracle
    (users.filter (·.is_active)), rfl⟩

/-- A habit passing the field validators with `duration = 0`: Django's
`PositiveIntegerField` admits zero, so only `duration ≤ 2` is enforced. -/
def zeroDurationHabit : Habit :=
  { habitNoProfile with duration := 0, frequency := 1 }

/-- C9 counterexample: a habit with `duration = 0` — not a positive
integer — is accepted by the model's field validators, refuting the
claim that validation-accepted habits have positive duration. -/
theorem zero_duration_accepted :
    fieldValid zeroDurationHabit = true ∧ ¬(0 < zeroDurationHabit.duration) := by
  constructor
  · rfl
  · decide

/-- C9 amended: the field validators accept a habit exactly when its
duration is an integer in [0,2] (Django's `PositiveIntegerField` admits
zero) and its frequency is an integer in [1,7]; anything outside these
ranges is rejected. -/
theorem field_validators_ranges (h : Habit) :
    fieldValid h = true ↔
      (0 ≤ h.duration ∧ h.duration ≤ 2 ∧ 1 ≤ h.frequency ∧ h.frequency ≤ 7) := by
  simp only [fieldValid, Bool.and_eq_true, decide_eq_true_eq]
  omega

/-- C10: at both layers the reward-presence tests use truthiness, so a
reward submitted as the empty string validates exactly like an absent
reward; in particular a pleasant habit with an empty-string reward is
accepted. -/
theorem empty_reward_is_absent (h : Habit) (d : SerData) :
    clean { h with reward := some "" } = clean { h with reward := none } ∧
    errOf (serValidate { d with reward := some "" })
      = errOf (serValidate { d with reward := none }) ∧
    clean { storedPleasant with reward := some "" } = .ok () ∧
    errOf (serValidate (fullDataOf { storedPleasant with reward := some "" })) = none := by
  refine ⟨?_, ?_, rfl, rfl⟩
  · simp [clean, truthy]
  · simp only [serValidate, errOf, truthy]
    cases hp : ({ d with reward := some "" } : SerData).is_pleasant.getD false <;>
      cases hr : d.related_habit <;>
      simp_all [errOf]
    all_goals (rename_i b; cases b <;> simp [errOf])

end Habits
